import Mathlib

/-!
Verification development for the CTF-Dojo repository's binary-runtime
compatibility resolver and generation/validation retry loop.

The Python source is shallowly embedded: pure string/byte manipulation is
translated directly; filesystem reads and subprocess invocations are
abstracted as explicit environment records whose fields carry exactly the
observations the source code makes (file existence, raw bytes, process
return codes, captured stdout/stderr, raised-exception flags).
-/

namespace CtfDojo

/-- Python `str.lower()` restricted to ASCII (the source only compares
ASCII library-name conventions). -/
def pyLower (s : String) : String := String.mk (s.toList.map Char.toLower)

/-- Contiguous-sublist test on character lists. -/
def isInfixOfChars : List Char → List Char → Bool
  | sub, [] => sub.isEmpty
  | sub, c :: rest => sub.isPrefixOf (c :: rest) || isInfixOfChars sub rest

/-- Python `sub in s` (substring containment). -/
def containsSubstr (s sub : String) : Bool := isInfixOfChars sub.toList s.toList

/-- Python `s.endswith(suffix)`. -/
def strEndsWith (s suffix : String) : Bool := suffix.toList.isSuffixOf s.toList

/-- Python `s.startswith(prefix)`. -/
def strStartsWith (s pre : String) : Bool := pre.toList.isPrefixOf s.toList

/-- Python `s.split('.')[0]`: the longest prefix of `s` not containing `'.'`. -/
def splitDotHead (s : String) : String :=
  String.mk (s.toList.takeWhile (fun c => c ≠ '.'))

/-- Python `s.split(sep)` for a one-character separator. -/
def splitCharAux (sep : Char) : List Char → List Char → List String
  | [], acc => [String.mk acc]
  | c :: rest, acc =>
    if c = sep then String.mk acc :: splitCharAux sep rest []
    else splitCharAux sep rest (acc ++ [c])

def splitOnChar (sep : Char) (s : String) : List String := splitCharAux sep s.toList []

/-- Python `int()` on the all-digit tokens handled here. -/
def digitsVal (l : List Char) : Nat :=
  l.foldl (fun acc c => 10 * acc + (c.toNat - '0'.toNat)) 0

/-- An insertion-ordered string dictionary, modelling a Python `dict`:
an existing key is updated in place, a new key is appended. -/
abbrev Dict := List (String × String)

/-- `d[k] = v` on a Python dict. -/
def dictInsert (d : Dict) (k v : String) : Dict :=
  match d with
  | [] => [(k, v)]
  | (k', v') :: rest =>
    if k' = k then (k, v) :: rest else (k', v') :: dictInsert rest k v

/-- Per-file body of the scan loop of `detect_provided_libraries`
(src/forge/ctf_forge.py): the checks are applied to the whole lowercased
path string. -/
def detectStep (provided_libs : Dict) (file_path : String) : Dict :=
  let file_name := pyLower file_path
  let d1 := if strEndsWith file_name ".so.2" then
      dictInsert provided_libs "dynamic_linker" file_path
    else provided_libs
  let d2 := if file_name = "libc.so.6" then dictInsert d1 "libc" file_path else d1
  if strStartsWith file_name "lib" && strEndsWith file_name ".so" then
    dictInsert d2 (splitDotHead file_name) file_path
  else d2

/-- `detect_provided_libraries` (src/forge/ctf_forge.py): detect custom
libraries among the task's files, by name convention. -/
def detect_provided_libraries (available_files : List String) : Dict :=
  available_files.foldl detectStep []

/-- The final path component, used only to state claims phrased in terms of
"the filename". -/
def pyBasename (p : String) : String := (splitOnChar '/' p).getLastD ""

/-! ## File classifier (src/forge/analysis.py) -/

/-- A file as observed by the Python code: existence and regular-file flags,
the raw bytes, and whether opening/reading the file in binary mode succeeds
(the source treats a failed binary read as `'binary'`). -/
structure PyFile where
  path_exists : Bool
  is_file : Bool
  read_ok : Bool
  bytes : List Nat
deriving DecidableEq

/-- Whether a byte is counted printable by `analyze_executable_content`:
`32 <= b <= 126 or b in [9, 10, 13]`. -/
def printableByte (b : Nat) : Bool :=
  (32 ≤ b && b ≤ 126) || b = 9 || b = 10 || b = 13

/-- `analyze_executable_content` (src/forge/analysis.py): byte-level
classification.  The trailing text analysis (shebang, keyword, extension
heuristics and the UTF-8 decode fallbacks) is abstracted as the
`text_branch` argument; every theorem below quantifies over it, so the
statements hold regardless of what that heuristic returns.
The float comparison `printable_chars / len(chunk) < 0.7` is modelled
exactly by the rational comparison `10 * printable < 7 * len` (for chunks
of at most 1024 bytes the two never disagree). -/
def analyze_executable_content (text_branch : PyFile → String) (f : PyFile) : String :=
  if !(f.path_exists && f.is_file) then "binary"
  else if !f.read_ok then "binary"
  else
    let header := f.bytes.take 16
    if [0x7f, 0x45, 0x4c, 0x46].isPrefixOf header then "binary"      -- ELF
    else if [0x4d, 0x5a].isPrefixOf header then "binary"             -- MZ (PE)
    else if [0xca, 0xfe, 0xba, 0xbe].isPrefixOf header then "binary" -- Mach-O
    else if [0x89, 0x50, 0x4e, 0x47].isPrefixOf header then "binary" -- PNG
    else if [0xff, 0xd8, 0xff].isPrefixOf header then "binary"       -- JPEG
    else if [0x50, 0x4b].isPrefixOf header then "binary"             -- ZIP
    else
      let chunk := f.bytes.take 1024
      if chunk.contains 0 then "binary"
      else
        let printable_chars := (chunk.filter printableByte).length
        if chunk.length > 0 && 10 * printable_chars < 7 * chunk.length then "binary"
        else text_branch f

/-- `detect_elf_architecture` (src/forge/analysis.py): ELF bit-width from
the class byte `e_ident[EI_CLASS]`.  A header of exactly four bytes makes
`header[4]` raise `IndexError`, which the surrounding `except` turns into
`'unknown'`. -/
def detect_elf_architecture (f : PyFile) : String :=
  if !(f.path_exists && f.is_file) then "unknown"
  else if !f.read_ok then "unknown"
  else
    let header := f.bytes.take 64
    if !([0x7f, 0x45, 0x4c, 0x46].isPrefixOf header) then "unknown"
    else
      match (header.drop 4).head? with
      | none => "unknown"
      | some elf_class =>
        if elf_class = 1 then "32"
        else if elf_class = 2 then "64"
        else "unknown"

/-- `Path(task_path) / file_path` for the relative paths the scanner
produces. -/
def pathJoin (task_path file_path : String) : String :=
  if task_path = "" then file_path else task_path ++ "/" ++ file_path

/-- Loop body of `get_binary_architecture`: route a file into the 32-bit or
64-bit group. -/
def archStep (text_branch : PyFile → String) (fs : String → PyFile) (task_path : String)
    (acc : List String × List String) (file_path : String) : List String × List String :=
  let full_path := fs (pathJoin task_path file_path)
  if analyze_executable_content text_branch full_path = "binary" then
    let arch := detect_elf_architecture full_path
    if arch = "32" then (acc.1 ++ [file_path], acc.2)
    else if arch = "64" then (acc.1, acc.2 ++ [file_path])
    else acc
  else acc

/-- `get_binary_architecture` (src/forge/analysis.py): reduce all binary
files of a task to one target bitness and the relevant file subset.
`fs` abstracts the filesystem (path → observed file). -/
def get_binary_architecture (text_branch : PyFile → String) (fs : String → PyFile)
    (task_path : String) (task_files : List String) : String × List String :=
  let groups := task_files.foldl (archStep text_branch fs task_path) ([], [])
  if groups.1 ≠ [] then ("32", groups.1)
  else if groups.2 ≠ [] then ("64", groups.2)
  else ("64", [])

/-- A file "classifies as a 32-bit ELF binary": the classifier answers
`binary` and the ELF header class byte answers `32`. -/
def classifies32 (text_branch : PyFile → String) (fs : String → PyFile)
    (task_path file_path : String) : Bool :=
  analyze_executable_content text_branch (fs (pathJoin task_path file_path)) = "binary"
    && detect_elf_architecture (fs (pathJoin task_path file_path)) = "32"

/-- A file "classifies as a 64-bit ELF binary". -/
def classifies64 (text_branch : PyFile → String) (fs : String → PyFile)
    (task_path file_path : String) : Bool :=
  analyze_executable_content text_branch (fs (pathJoin task_path file_path)) = "binary"
    && detect_elf_architecture (fs (pathJoin task_path file_path)) = "64"

/-! ## GLIBC version detector (src/forge/ctf_forge.py, detect_glibc_version) -/

/-- Python regex `\s` on the inputs at hand (ASCII whitespace). -/
def isPyWs (c : Char) : Bool :=
  c = ' ' || c = '\t' || c = '\n' || c = '\r' || c = '\x0b' || c = '\x0c'

/-- ASCII digit test, Python regex `\d` on ASCII text. -/
def isAsciiDigit (c : Char) : Bool := '0' ≤ c && c ≤ '9'

/-- Try to match `version\s+(\d+\.\d+)` at the head of `cs`; on success
return the captured `major.minor` token.  For this pattern the greedy
matcher never needs to backtrack (whitespace, digits and `'.'` are
pairwise disjoint), so maximal-munch per atom is exact. -/
def matchVersionAt (cs : List Char) : Option String :=
  if "version".toList.isPrefixOf cs then
    let rest := cs.drop 7
    let ws := rest.takeWhile isPyWs
    if ws.isEmpty then none
    else
      let rest2 := rest.drop ws.length
      let d1 := rest2.takeWhile isAsciiDigit
      if d1.isEmpty then none
      else
        match rest2.drop d1.length with
        | '.' :: rest3 =>
          let d2 := rest3.takeWhile isAsciiDigit
          if d2.isEmpty then none
          else some (String.mk (d1 ++ '.' :: d2))
        | _ => none
  else none

/-- `re.search(r'version\s+(\d+\.\d+)', line)`: leftmost match wins. -/
def searchVersion : List Char → Option String
  | [] => none
  | c :: cs =>
    match matchVersionAt (c :: cs) with
    | some v => some v
    | none => searchVersion cs

/-- Try to match `GLIBC_(\d+\.\d+)` at the head of `cs`; on success return
the captured token together with the suffix after the whole match. -/
def matchGlibcAt (cs : List Char) : Option (String × List Char) :=
  if "GLIBC_".toList.isPrefixOf cs then
    let rest := cs.drop 6
    let d1 := rest.takeWhile isAsciiDigit
    if d1.isEmpty then none
    else
      match rest.drop d1.length with
      | '.' :: rest3 =>
        let d2 := rest3.takeWhile isAsciiDigit
        if d2.isEmpty then none
        else some (String.mk (d1 ++ '.' :: d2), rest3.drop d2.length)
      | _ => none
  else none

/-- `re.findall(r'GLIBC_(\d+\.\d+)', line)`: all non-overlapping matches,
left to right.  The fuel argument (initially the list length) only bounds
the recursion; every match consumes at least one character. -/
def findGlibcAux : Nat → List Char → List String
  | 0, _ => []
  | _ + 1, [] => []
  | fuel + 1, c :: cs =>
    match matchGlibcAt (c :: cs) with
    | some (v, rest) => v :: findGlibcAux fuel rest
    | none => findGlibcAux fuel cs

def findGlibcVersions (cs : List Char) : List String := findGlibcAux cs.length cs

/-- `tuple(map(int, v.split('.')))` for the `major.minor` tokens the
regexes produce. -/
def verKey (v : String) : Nat × Nat :=
  match splitOnChar '.' v with
  | a :: b :: _ => (digitsVal a.toList, digitsVal b.toList)
  | _ => (0, 0)

/-- Strict lexicographic comparison of version keys. -/
def verKeyLt (a b : Nat × Nat) : Bool := a.1 < b.1 || (a.1 = b.1 && a.2 < b.2)

/-- Python `max(versions, key=...)`: first element with the maximal key. -/
def pyMaxVersion (l : List String) : String :=
  match l with
  | [] => ""
  | v :: rest => rest.foldl (fun best x => if verKeyLt (verKey best) (verKey x) then x else best) v

/-- One line of the `strings` scan: a version is produced when the line
carries both marker phrases and the version regex matches. -/
def stringsLineVersion (line : String) : Option String :=
  if containsSubstr line "GNU C Library" && containsSubstr line "stable release version" then
    searchVersion line.toList
  else none

/-- One line of the `readelf -V` scan: the highest `GLIBC_x.y` tag of the
first line carrying any. -/
def readelfLineVersion (line : String) : Option String :=
  if containsSubstr line "GLIBC_" then
    match findGlibcVersions line.toList with
    | [] => none
    | vs => some (pyMaxVersion vs)
  else none

/-- The observations `detect_glibc_version` makes of its environment: the
libc file's existence, whether any of the wrapped subprocess calls raises
(timeout, missing tool, ...), and each tool's return code and stdout. -/
structure LibcEnv where
  file_exists : Bool
  raises : Bool
  strings_rc : Int
  strings_stdout : String
  readelf_rc : Int
  readelf_stdout : String

/-- `detect_glibc_version` (src/forge/ctf_forge.py): extract a GLIBC
version string from a libc file, or `none` when detection fails.  Any
exception inside the `try` block is caught and also yields `none`. -/
def detect_glibc_version (env : LibcEnv) : Option String :=
  if !env.file_exists then none
  else if env.raises then none
  else
    let scan1 :=
      if env.strings_rc = 0 then
        (splitOnChar '\n' env.strings_stdout).findSome? stringsLineVersion
      else none
    match scan1 with
    | some v => some v
    | none =>
      if env.readelf_rc = 0 then
        (splitOnChar '\n' env.readelf_stdout).findSome? readelfLineVersion
      else none

/-! ## Base image selector (src/forge/ctf_forge.py, select_compatible_base_image) -/

/-- The static GLIBC-version → Ubuntu-tag table of
`select_compatible_base_image`. -/
def version_mapping : List (String × String) :=
  [("2.23", "ubuntu:16.04"), ("2.24", "ubuntu:16.04"), ("2.25", "ubuntu:17.04"),
   ("2.26", "ubuntu:18.04"), ("2.27", "ubuntu:18.04"), ("2.28", "ubuntu:18.04"),
   ("2.29", "ubuntu:19.04"), ("2.30", "ubuntu:20.04"), ("2.31", "ubuntu:20.04"),
   ("2.32", "ubuntu:20.04"), ("2.33", "ubuntu:21.04"), ("2.34", "ubuntu:21.10"),
   ("2.35", "ubuntu:22.04"), ("2.36", "ubuntu:22.04"), ("2.37", "ubuntu:22.04"),
   ("2.38", "ubuntu:23.04")]

/-- Python `int()` for the all-digit tokens the detector produces. -/
def pyInt (s : String) : Nat := digitsVal s.toList

/-- `select_compatible_base_image` (src/forge/ctf_forge.py): map the
provided-library inventory to a base image tag.  `env` carries the
detector's observations of the libc file named by the inventory. -/
def select_compatible_base_image (provided_libs : Dict) (task_path : String)
    (env : LibcEnv) : String :=
  let default_base := "ubuntu:20.04"
  if provided_libs.isEmpty || (provided_libs.lookup "libc").isNone then default_base
  else if task_path ≠ "" then
    match detect_glibc_version env with
    | some glibc_version =>
      match version_mapping.lookup glibc_version with
      | some compatible_base => compatible_base
      | none =>
        let version_parts := splitOnChar '.' glibc_version
        if version_parts.length ≥ 2 then
          let major := pyInt (version_parts.getD 0 "")
          let minor := pyInt (version_parts.getD 1 "")
          if major = 2 && minor ≤ 23 then "ubuntu:16.04"
          else if major = 2 && minor ≤ 27 then "ubuntu:18.04"
          else if major = 2 && minor ≤ 31 then "ubuntu:20.04"
          else "ubuntu:22.04"
        else default_base
    | none => default_base
  else default_base

/-! ## Compatibility tester (src/forge/ctf_forge.py,
test_binary_library_configurations) -/

/-- Outcome of the tier-1 sandbox execution (`subprocess.run` of the bare
binary): a timeout, some other exception, or completion with a return
code and captured stderr. -/
inductive RunOutcome where
  | timeout
  | error (msg : String)
  | completed (returncode : Int) (stderr : String)

/-- Outcome of a tier-2/tier-3 `try` block: `TimeoutExpired` anywhere in
the block, another exception, a failing `patchelf` call (non-zero return
code, no exception), or a completed run of the patched binary. -/
inductive PatchedRunOutcome where
  | timeout
  | error (msg : String)
  | patchelfFailed
  | ran (returncode : Int)

/-- Outcome of probing the system libc for its version banner. -/
inductive SysGlibcOutcome where
  | raised
  | completed (returncode : Int) (stdout : String)

/-- The observations the tester makes of its sandbox environment. -/
structure TestEnv where
  binary_exists : Bool
  libcEnv : LibcEnv
  system_glibc : SysGlibcOutcome
  tier1 : RunOutcome
  tier2 : PatchedRunOutcome
  tier3 : PatchedRunOutcome

/-- The `test_results` dictionary threaded through the tester. -/
structure TestResults where
  system_libs : Bool
  custom_libc_only : Bool
  custom_dynamic_linker : Bool
  working_config : String
  commands : List String
  reason : String
  detected_issues : List String
  recommended_base_image : String
deriving DecidableEq

/-- Initial value of `test_results`. -/
def initResults : TestResults :=
  { system_libs := false
    custom_libc_only := false
    custom_dynamic_linker := false
    working_config := "unknown"
    commands := []
    reason := "No working configuration found"
    detected_issues := []
    recommended_base_image := "ubuntu:20.04" }

/-- GLIBC-mismatch pre-step: when a custom libc is provided and both its
version and the system version are detectable and differ, record the issue
and a recommended base image. -/
def mismatchStep (provided_libs : Dict) (task_path : String) (env : TestEnv)
    (r : TestResults) : TestResults :=
  if (provided_libs.lookup "libc").isSome then
    match detect_glibc_version env.libcEnv with
    | none => r
    | some custom_glibc_version =>
      match env.system_glibc with
      | .raised => r
      | .completed rc out =>
        if rc = 0 then
          match searchVersion out.toList with
          | none => r
          | some system_glibc_version =>
            if custom_glibc_version ≠ system_glibc_version then
              { r with
                detected_issues := r.detected_issues ++
                  ["GLIBC version mismatch: custom=" ++ custom_glibc_version ++
                   ", system=" ++ system_glibc_version]
                recommended_base_image :=
                  select_compatible_base_image provided_libs task_path env.libcEnv }
            else r
        else r
  else r

/-- Tier 1 (`system_libs`): run the bare binary and classify the outcome. -/
def tier1Step (env : TestEnv) (r : TestResults) : TestResults :=
  match env.tier1 with
  | .timeout => { r with system_libs := true }
  | .error _ => r
  | .completed exit_code stderr =>
    let stderr_output := pyLower stderr
    let segfault := exit_code = -11
      || containsSubstr stderr_output "segmentation fault"
      || containsSubstr stderr_output "core dumped"
    let library_error := containsSubstr stderr_output "cannot execute binary file"
      || (containsSubstr stderr_output "no such file or directory"
            && containsSubstr stderr_output "ld-linux")
      || containsSubstr stderr_output "wrong elf class"
      || containsSubstr stderr_output "incompatible"
    if segfault then
      { r with detected_issues := r.detected_issues ++ ["Binary segfaults with system libraries"] }
    else if library_error then
      { r with detected_issues := r.detected_issues ++ ["Binary has library compatibility issues"] }
    else { r with system_libs := true }

/-- Guard of the tier-2 block: `'libc' in provided_libs and not
test_results["system_libs"]`. -/
def tier2Guard (provided_libs : Dict) (r : TestResults) : Bool :=
  (provided_libs.lookup "libc").isSome && !r.system_libs

/-- Tier 2 (`custom_libc_only`): patch the rpath and re-run; only an
explicit SIGSEGV counts as failure. -/
def tier2Step (env : TestEnv) (r : TestResults) : TestResults :=
  match env.tier2 with
  | .timeout => { r with custom_libc_only := true }
  | .error msg =>
    { r with detected_issues := r.detected_issues ++ ["Custom libc test failed: " ++ msg] }
  | .patchelfFailed =>
    { r with detected_issues := r.detected_issues ++ ["patchelf failed to set rpath"] }
  | .ran returncode =>
    if returncode ≠ -11 then { r with custom_libc_only := true }
    else
      { r with detected_issues := r.detected_issues ++
          ["Custom libc with system linker still segfaults"] }

/-- Guard of the tier-3 block: `'dynamic_linker' in provided_libs and
'libc' in provided_libs and not test_results["custom_libc_only"]`.
Note that `system_libs` is *not* consulted here. -/
def tier3Guard (provided_libs : Dict) (r : TestResults) : Bool :=
  (provided_libs.lookup "dynamic_linker").isSome
    && (provided_libs.lookup "libc").isSome
    && !r.custom_libc_only

/-- Tier 3 (`custom_dynamic_linker`): patch interpreter and rpath and
re-run. -/
def tier3Step (env : TestEnv) (r : TestResults) : TestResults :=
  match env.tier3 with
  | .timeout => { r with custom_dynamic_linker := true }
  | .error msg =>
    { r with detected_issues := r.detected_issues ++
        ["Custom dynamic linker test failed: " ++ msg] }
  | .patchelfFailed =>
    { r with detected_issues := r.detected_issues ++
        ["patchelf failed to set interpreter or rpath"] }
  | .ran returncode =>
    if returncode ≠ -11 then { r with custom_dynamic_linker := true }
    else
      { r with detected_issues := r.detected_issues ++
          ["Custom dynamic linker + custom libc still segfaults"] }

/-- Final classification: pick the working configuration in priority
order and attach its remediation commands. -/
def classifyStep (provided_libs : Dict) (test_binary : String) (r : TestResults) :
    TestResults :=
  if r.system_libs then
    { r with working_config := "system_libs", commands := []
             reason := "Binary works with system libraries, no patchelf needed" }
  else if r.custom_libc_only then
    { r with working_config := "custom_libc_only"
             commands := ["# Set library path for custom libc",
                          "    patchelf --set-rpath . /challenge/" ++ test_binary]
             reason := "Binary works with custom libc and system dynamic linker" }
  else if r.custom_dynamic_linker then
    { r with working_config := "custom_dynamic_linker"
             commands := ["# Set custom interpreter and library path",
                          "    patchelf --set-interpreter ./" ++
                            ((provided_libs.lookup "dynamic_linker").getD "") ++
                            " /challenge/" ++ test_binary,
                          "    patchelf --set-rpath . /challenge/" ++ test_binary]
             reason := "Binary requires both custom dynamic linker and custom libc" }
  else
    { r with working_config := "unknown", commands := []
             reason := "No working library configuration found - all tests failed"
             detected_issues := r.detected_issues ++
               (if !provided_libs.isEmpty then
                  ["Consider using compatible base image",
                   "Consider using system dynamic linker with LD_LIBRARY_PATH"]
                else []) }

/-- State after the tier-1 block. -/
def stateAfterTier1 (provided_libs : Dict) (task_path : String) (env : TestEnv) :
    TestResults :=
  tier1Step env (mismatchStep provided_libs task_path env initResults)

/-- State after the (guarded) tier-2 block. -/
def stateAfterTier2 (provided_libs : Dict) (task_path : String) (env : TestEnv) :
    TestResults :=
  let r := stateAfterTier1 provided_libs task_path env
  if tier2Guard provided_libs r then tier2Step env r else r

/-- State after the (guarded) tier-3 block. -/
def stateAfterTier3 (provided_libs : Dict) (task_path : String) (env : TestEnv) :
    TestResults :=
  let r := stateAfterTier2 provided_libs task_path env
  if tier3Guard provided_libs r then tier3Step env r else r

/-- The tester's return value.  The no-binaries early return builds a
three-key dictionary, distinct in shape from the full `test_results`. -/
inductive TestOutcome where
  | earlyNone (working_config : String) (commands : List String) (reason : String)
  | result (r : TestResults)
deriving DecidableEq

/-- `outcome["working_config"]`. -/
def TestOutcome.working_config : TestOutcome → String
  | .earlyNone wc _ _ => wc
  | .result r => r.working_config

/-- `outcome["commands"]`. -/
def TestOutcome.commands : TestOutcome → List String
  | .earlyNone _ cmds _ => cmds
  | .result r => r.commands

/-- `test_binary_library_configurations` (src/forge/ctf_forge.py): the
tiered sandbox probing state machine. -/
def test_binary_library_configurations (task_path : String) (binary_files : List String)
    (provided_libs : Dict) (env : TestEnv) : TestOutcome :=
  match binary_files with
  | [] => .earlyNone "none" [] "No binary files to test"
  | test_binary :: _ =>
    if !env.binary_exists then
      .result { initResults with reason := "Test binary " ++ test_binary ++ " not found" }
    else
      .result (classifyStep provided_libs test_binary
        (stateAfterTier3 provided_libs task_path env))

/-! ## Fix-command generator (src/forge/ctf_forge.py,
generate_library_fix_commands) -/

/-- The heuristic fallback command list (used when no sandbox test ran or
no configuration worked). -/
def heuristicFixCommands (provided_libs : Dict) (binary_files : List String) :
    List String :=
  if (provided_libs.lookup "dynamic_linker").isSome then
    let dynamic_linker := (provided_libs.lookup "dynamic_linker").getD ""
    "# Fix interpreter and library paths for provided libraries" ::
      binary_files.flatMap (fun binary_file =>
        ["    patchelf --set-interpreter ./" ++ dynamic_linker ++ " /challenge/" ++ binary_file,
         "    patchelf --set-rpath . /challenge/" ++ binary_file])
  else if (provided_libs.lookup "libc").isSome then
    "# Set library path for provided libraries" ::
      binary_files.map (fun binary_file =>
        "    patchelf --set-rpath . /challenge/" ++ binary_file)
  else []

/-- `generate_library_fix_commands` (src/forge/ctf_forge.py): turn the
resolved configuration into concrete remediation commands. -/
def generate_library_fix_commands (provided_libs : Dict) (binary_files : List String)
    (task_path : String) (env : TestEnv) : List String :=
  if provided_libs.isEmpty || binary_files.isEmpty then []
  else if task_path ≠ "" then
    let test_results := test_binary_library_configurations task_path binary_files
      provided_libs env
    if test_results.working_config = "system_libs" then []
    else if test_results.working_config = "custom_libc_only"
        || test_results.working_config = "custom_dynamic_linker" then
      test_results.commands
    else heuristicFixCommands provided_libs binary_files
  else heuristicFixCommands provided_libs binary_files

/-! ## Artifact validator / retry loop (src/ctf_forge.py,
generate_dockerfile_with_retries; src/forge/generation.py) -/

/-- Python `str.strip()` (ASCII whitespace as produced by the model
responses handled here). -/
def pyStrip (s : String) : String :=
  String.mk (((s.toList.dropWhile isPyWs).reverse.dropWhile isPyWs).reverse)

/-- Outcome of one call of `call_model_for_dockerfile_with_fallback`:
either an exception, or a `(dockerfile_content, parsed_flag)` pair. -/
inductive GenOutcome where
  | raises
  | ok (content : String) (flag : Option String)

/-- The retry loop's collaborators: the generation oracle per attempt
number, the content-repair part of `validate_and_fix_dockerfile`, and the
issue list computed by `validate_dockerfile` (whose validity verdict is
`issues == []`, exactly as in src/forge/validators.py, which returns
`len(issues) == 0, issues`). -/
structure RetryEnv where
  gen : Nat → GenOutcome
  fixContent : String → String
  issuesOf : String → List String

/-- The loop's per-issue classifier: `"does not match any available
files" in issue`. -/
def hasFileIssue (issues : List String) : Bool :=
  issues.any (fun issue => containsSubstr issue "does not match any available files")

/-- Decision taken by one iteration of the retry loop's body. -/
inductive AttemptDecision where
  | accept (content : String) (flag : Option String)
  | retry (content : String) (flag : Option String)
  | raised

/-- Body of one attempt of `generate_dockerfile_with_retries`
(src/ctf_forge.py): call the model, repair and validate, accept unless the
validation issues include a missing-file issue. -/
def attemptOutcome (env : RetryEnv) (n : Nat) : AttemptDecision :=
  match env.gen n with
  | .raises => .raised
  | .ok content flag =>
    if pyStrip content ≠ "" then
      let content' := env.fixContent content
      let validation_issues := env.issuesOf content'
      if validation_issues.isEmpty then .accept content' flag
      else if hasFileIssue validation_issues then .retry content' flag
      else .accept content' flag
    else .retry content flag

/-- Result of `generate_dockerfile_with_retries`, together with the final
value of its `dockerfile_retry_count` counter. -/
structure RetryResult where
  content : String
  flag : Option String
  success : Bool
  attempts : Nat
deriving DecidableEq

/-- The retry loop: `rem` is the number of attempts still allowed
(`max_dockerfile_retries - dockerfile_retry_count`), `count` the attempts
made so far.  An exception on the last allowed attempt breaks out of the
loop exactly as the in-loop `break` does. -/
def retryLoop (env : RetryEnv) : Nat → Nat → String → Option String → RetryResult
  | 0, count, _, _ => ⟨"", none, false, count⟩
  | rem + 1, count, content, flag =>
    let n := count + 1
    match attemptOutcome env n with
    | .accept c f => ⟨c, f, true, n⟩
    | .retry c f => retryLoop env rem n c f
    | .raised =>
      if n ≥ 5 then ⟨"", none, false, n⟩
      else retryLoop env rem n content flag

/-- `generate_dockerfile_with_retries` (src/ctf_forge.py): at most
`max_dockerfile_retries = 5` generation attempts; a hard failure is the
triple `("", None, False)`. -/
def generate_dockerfile_with_retries (env : RetryEnv) : RetryResult :=
  retryLoop env 5 0 "" none

/-- An attempt "fails": the model call raises, produces blank content, or
produces content whose repaired form still has a missing-file validation
issue. -/
def attemptFails (env : RetryEnv) (n : Nat) : Prop :=
  match env.gen n with
  | .raises => True
  | .ok content _ =>
    pyStrip content = "" ∨ hasFileIssue (env.issuesOf (env.fixContent content)) = true

/-- `str(list_of_strings)` for names free of quote and escape
characters, as interpolated by the f-string feedback prompt. -/
def pyListStrCore : List String → String
  | [] => ""
  | [s] => "'" ++ s ++ "'"
  | s :: rest => "'" ++ s ++ "', " ++ pyListStrCore rest

def pyListStr (l : List String) : String := "[" ++ pyListStrCore l ++ "]"

/-- The feedback prompt built in `call_model_for_dockerfile`
(src/forge/generation.py) when the generated Dockerfile copies
non-existing files: the offending names are listed explicitly and the
request is re-issued. -/
def mkFeedbackPrompt (non_existing_files available_files : List String)
    (base_image prompt : String) : String :=
  "\nThe previous Dockerfile tried to copy files that don't exist in the task folder:\n" ++
  "Non-existing files: " ++ pyListStr non_existing_files ++ "\n\n" ++
  "Available files in the task folder are ONLY:\n" ++ pyListStr available_files ++ "\n\n" ++
  "Please generate a corrected Dockerfile that ONLY copies files from the available files list above. Do not reference any files not in this list.\n" ++
  "Use " ++ base_image ++ " as the base image for compatibility.\n\n" ++
  "Original prompt:\n" ++ prompt

/-! ## Concrete instances used by counterexamples and witnesses -/

/-- Witness for C9: a concrete ELF file is classified `binary` even under a
text heuristic that would answer `python`. -/
def c9File : PyFile := ⟨true, true, true, [0x7f, 0x45, 0x4c, 0x46, 2, 0, 1, 0]⟩

/-- C6, counterexample.  An input on which both the string scan and the
version-symbol scan fail: the detector returns `none` (Python `None`), not
the string `"unknown"` the claim requires. -/
def c6Env : LibcEnv :=
  ⟨true, false, 0, "GNU C Library without the release phrase", 0, "no version tags here"⟩

/-- C7, counterexample.  With no custom libc the selector returns
`"ubuntu:20.04"`, whereas a parseable version above the `<= 2.31` band
(here 2.39, absent from the static table) yields `"ubuntu:22.04"`: the
no-libc/undetected default is not the newest-tier tag. -/
def c7Env239 : LibcEnv :=
  ⟨true, false, 0, "GNU C Library stable release version 2.39.", 0, ""⟩

/-- Witness material for C5: a task holding one 32-bit and one 64-bit ELF
binary. -/
def c5File32 : PyFile := ⟨true, true, true, [0x7f, 0x45, 0x4c, 0x46, 1, 1, 1, 0]⟩

def c5File64 : PyFile := ⟨true, true, true, [0x7f, 0x45, 0x4c, 0x46, 2, 1, 1, 0]⟩

def c5Fs : String → PyFile := fun p =>
  if p = "task/a32" then c5File32
  else if p = "task/b64" then c5File64
  else ⟨false, false, false, []⟩

def c5Tb : PyFile → String := fun _ => "shell"

/-- Witness for C2: an oracle that always produces a Dockerfile copying a
missing file. -/
def c2Env : RetryEnv :=
  ⟨fun _ => .ok "COPY foo.bin /challenge/" none, id,
   fun _ => ["File pattern 'foo.bin' does not match any available files"]⟩

/-- Witness material for C3: an oracle whose artifact copies a missing
file. -/
def c3Env : RetryEnv :=
  ⟨fun _ => .ok "COPY foo.bin /challenge/" none, id,
   fun _ => ["File pattern 'foo.bin' does not match any available files"]⟩

/-- Witness material for C3: an oracle whose artifact only lacks an EXPOSE
directive. -/
def c3EnvAccept : RetryEnv :=
  ⟨fun _ => .ok "FROM ubuntu:20.04" none, id,
   fun _ => ["Missing EXPOSE instruction - challenge needs to be accessible over network"]⟩

/-- C1, counterexample.  Both a libc and a dynamic linker are supplied and
tier 1 succeeds (the binary exits cleanly under system libraries); tier 2
is skipped, so `custom_libc_only` is still false — and the tier-3 guard
nevertheless holds, so the tier-3 sandbox probe is attempted even though
tier 1 already succeeded. -/
def c1Libs : Dict := [("dynamic_linker", "ld-linux.so.2"), ("libc", "libc.so.6")]

def c1Env : TestEnv :=
  ⟨true, ⟨false, false, 1, "", 1, ""⟩, .raised, .completed 0 "", .ran 0, .ran 0⟩

/-- A remediation command drawn from the generator's fixed templates: a
comment line, an rpath rewrite for one of the given binaries, or an
interpreter rewrite naming the inventory's `dynamic_linker` path. -/
def allowedFixCommand (provided_libs : Dict) (binary_files : List String)
    (cmd : String) : Prop :=
  cmd ∈ (["# Set library path for custom libc",
          "# Set custom interpreter and library path",
          "# Fix interpreter and library paths for provided libraries",
          "# Set library path for provided libraries"] : List String)
  ∨ (∃ b ∈ binary_files, cmd = "    patchelf --set-rpath . /challenge/" ++ b)
  ∨ (∃ b ∈ binary_files, ∃ dl, provided_libs.lookup "dynamic_linker" = some dl
       ∧ cmd = "    patchelf --set-interpreter ./" ++ dl ++ " /challenge/" ++ b)

/-- C4, counterexample.  An inventory holding only `libssl` with a binary
that fails every tier: the tester reports `working_config = "unknown"`,
yet the generator returns the empty command list — refuting "empty iff
`system_libs`". -/
def c4Libs : Dict := [("libssl", "libssl.so")]

def c4Env : TestEnv :=
  ⟨true, ⟨false, false, 1, "", 1, ""⟩, .raised, .completed (-11) "", .ran 0, .ran 0⟩

def c4wLibs : Dict := [("libc", "libc.so.6")]

def c4hLibs : Dict := [("dynamic_linker", "ld-linux.so.2"), ("libc", "libc.so.6")]

def c4wEnv : TestEnv :=
  ⟨true, ⟨false, false, 1, "", 1, ""⟩, .raised, .completed 0 "", .ran 0, .ran 0⟩

/-! ## General lemmas -/
/-! ## General lemmas -/

theorem isInfixOfChars_iff {sub l : List Char} : isInfixOfChars sub l = true ↔ sub <:+: l := by
  induction l with
  | nil =>
    simp only [isInfixOfChars, List.isEmpty_iff, List.infix_nil]
  | cons c rest ih =>
    simp only [isInfixOfChars, Bool.or_eq_true, List.isPrefixOf_iff_prefix, ih,
      List.infix_cons_iff]

theorem containsSubstr_iff {s sub : String} :
    containsSubstr s sub = true ↔ sub.toList <:+: s.toList := isInfixOfChars_iff

theorem toList_append (a b : String) : (a ++ b).toList = a.toList ++ b.toList := rfl

theorem infix_of_append {x y : List Char} (a b : List Char) (h : x <:+: y) :
    x <:+: a ++ y ++ b := by
  obtain ⟨s, t, rfl⟩ := h
  exact ⟨a ++ s, t ++ b, by simp⟩

theorem any_eq_true_isEmpty_false {α : Type} {l : List α} {p : α → Bool}
    (h : l.any p = true) : l.isEmpty = false := by
  cases l with
  | nil => simp at h
  | cons x xs => rfl

/-! ## Claims about the file classifier -/

/-- C9.  For every readable file whose first four bytes are the ELF magic
`0x7f 'E' 'L' 'F'`, `analyze_executable_content` returns `'binary'`,
regardless of the text-analysis heuristic (quantified here as
`text_branch`). -/
theorem c9_elf_magic_classifies_binary (text_branch : PyFile → String) (f : PyFile)
    (h1 : f.path_exists = true) (h2 : f.is_file = true) (h3 : f.read_ok = true)
    (h4 : [0x7f, 0x45, 0x4c, 0x46].isPrefixOf f.bytes = true) :
    analyze_executable_content text_branch f = "binary" := by
  have h4' : [0x7f, 0x45, 0x4c, 0x46] <+: f.bytes.take 16 :=
    List.prefix_take_iff.mpr ⟨List.isPrefixOf_iff_prefix.mp h4, by simp⟩
  simp only [analyze_executable_content, h1, h2, h3, Bool.and_self, Bool.not_true,
    Bool.false_eq_true, if_false, List.isPrefixOf_iff_prefix]
  rw [if_pos h4']

theorem c9_witness : analyze_executable_content (fun _ => "python") c9File = "binary" :=
  c9_elf_magic_classifies_binary (fun _ => "python") c9File rfl rfl rfl (by decide)

/-! ## Claims about the compatibility tester's early return -/

/-- C10.  On an empty binary list the tester returns, for every
environment (hence without consulting any sandbox observation), the
three-key early dictionary whose `working_config` is `"none"` — a value
outside the documented enum — with an empty command list. -/
theorem c10_empty_binaries_early_return (task_path : String) (provided_libs : Dict)
    (env : TestEnv) :
    test_binary_library_configurations task_path [] provided_libs env
        = .earlyNone "none" [] "No binary files to test"
      ∧ (test_binary_library_configurations task_path [] provided_libs env).commands = []
      ∧ "none" ∉ (["system_libs", "custom_libc_only", "custom_dynamic_linker",
          "unknown"] : List String) :=
  ⟨rfl, rfl, by decide⟩

/-! ## Claims about the GLIBC version detector -/

theorem c6_counterexample :
    detect_glibc_version c6Env = none ∧ detect_glibc_version c6Env ≠ some "unknown" :=
  ⟨by decide, by decide⟩

/-- C6, amended.  When every `strings` line fails the string scan and every
`readelf` line fails the version-symbol scan, the detector returns `none`
(the embedding is total, so no exception escapes). -/
theorem c6_amended_returns_none (env : LibcEnv)
    (h1 : ∀ line ∈ splitOnChar '\n' env.strings_stdout, stringsLineVersion line = none)
    (h2 : ∀ line ∈ splitOnChar '\n' env.readelf_stdout, readelfLineVersion line = none) :
    detect_glibc_version env = none := by
  unfold detect_glibc_version
  cases hex : env.file_exists with
  | false => simp
  | true =>
    cases hra : env.raises with
    | true => simp
    | false =>
      simp only [Bool.not_true, Bool.not_false, Bool.false_eq_true, if_false, if_true]
      have e1 : (splitOnChar '\n' env.strings_stdout).findSome? stringsLineVersion = none :=
        List.findSome?_eq_none_iff.mpr h1
      have e2 : (splitOnChar '\n' env.readelf_stdout).findSome? readelfLineVersion = none :=
        List.findSome?_eq_none_iff.mpr h2
      by_cases hs : env.strings_rc = 0 <;> by_cases hr : env.readelf_rc = 0 <;>
        simp [hs, hr, e1, e2]

theorem c6_witness : detect_glibc_version c6Env = none :=
  c6_amended_returns_none c6Env (by decide) (by decide)

/-! ## Claims about the base image selector -/

theorem c7_counterexample :
    select_compatible_base_image [] "task" c7Env239 = "ubuntu:20.04"
      ∧ select_compatible_base_image [("libc", "libc.so.6")] "task" c7Env239
          = "ubuntu:22.04"
      ∧ ("ubuntu:20.04" : String) ≠ "ubuntu:22.04" :=
  ⟨by decide, by decide, by decide⟩

/-- C7, amended.  With no custom libc in the inventory, or with an
undetectable GLIBC version, the selector returns the default
`"ubuntu:20.04"` — the `<= 2.31`-band tag, not the `"ubuntu:22.04"` tag
used for parseable versions above that band. -/
theorem c7_amended_default_tag (provided_libs : Dict) (task_path : String)
    (env : LibcEnv)
    (h : provided_libs.lookup "libc" = none ∨ detect_glibc_version env = none) :
    select_compatible_base_image provided_libs task_path env = "ubuntu:20.04" := by
  unfold select_compatible_base_image
  rcases h with h | h
  · simp [h]
  · by_cases hl : (provided_libs.lookup "libc").isNone
    · simp [hl]
    · by_cases hp : task_path ≠ "" <;> simp [hl, hp, h]

theorem c7_witness :
    select_compatible_base_image [("libc", "libc.so.6")] "task"
      ⟨true, false, 1, "", 1, ""⟩ = "ubuntu:20.04" :=
  c7_amended_default_tag [("libc", "libc.so.6")] "task" ⟨true, false, 1, "", 1, ""⟩
    (Or.inr (by decide))

/-! ## Claims about the library inventory -/

theorem lookup_dictInsert_self (d : Dict) (k v : String) :
    (dictInsert d k v).lookup k = some v := by
  induction d with
  | nil => simp [dictInsert]
  | cons kv rest ih =>
    obtain ⟨k', v'⟩ := kv
    unfold dictInsert
    by_cases h : k' = k
    · simp [h]
    · have hbe : (k == k') = false := beq_eq_false_iff_ne.mpr (Ne.symm h)
      simp only [if_neg h, List.lookup, hbe, ih]

theorem lookup_dictInsert_ne (d : Dict) (k k' v : String) (h : k' ≠ k) :
    (dictInsert d k v).lookup k' = d.lookup k' := by
  have hbe : (k' == k) = false := beq_eq_false_iff_ne.mpr h
  induction d with
  | nil => simp [dictInsert, List.lookup, hbe]
  | cons kv rest ih =>
    obtain ⟨k₀, v₀⟩ := kv
    unfold dictInsert
    by_cases h₀ : k₀ = k
    · subst h₀
      simp only [if_pos rfl, List.lookup, hbe]
    · simp only [if_neg h₀, List.lookup]
      cases hbe₀ : (k' == k₀) <;> simp [hbe₀, ih]

theorem splitDotHead_of_startsWith_lib (s : String)
    (h : strStartsWith s "lib" = true) : splitDotHead s ≠ "dynamic_linker" := by
  have hp : "lib".toList <+: s.toList := List.isPrefixOf_iff_prefix.mp h
  obtain ⟨t, ht⟩ := hp
  intro heq
  have : (s.toList.takeWhile (fun c => c ≠ '.')) = "dynamic_linker".toList :=
    congrArg String.toList heq
  rw [← ht] at this
  simp [List.takeWhile] at this

/-- C8, counterexample.  A libc provided in a subdirectory: its filename is
exactly `libc.so.6`, yet the scan (which matches the whole lowercased
path, not the filename) assigns it no role at all. -/
theorem c8_counterexample :
    pyBasename "sub/libc.so.6" = "libc.so.6"
      ∧ detect_provided_libraries ["sub/libc.so.6"] = []
      ∧ (detect_provided_libraries ["sub/libc.so.6"]).lookup "libc" = none :=
  ⟨by decide, by decide, by decide⟩

/-- C8, amended.  The scan is case-insensitive and content-free, but keys
on the whole lowercased path string rather than the filename: a path
ending in `.so.2` sets the `dynamic_linker` role; a path wholly equal to
`libc.so.6` sets the `libc` role; a path starting with `lib` and ending in
`.so` sets the key given by the portion of the lowercased path before its
first dot; a path matching none of the three rules leaves the inventory
unchanged. -/
theorem c8_amended_inventory_rules (d : Dict) (p : String) :
    (strEndsWith (pyLower p) ".so.2" = true →
       (detectStep d p).lookup "dynamic_linker" = some p)
    ∧ (pyLower p = "libc.so.6" → (detectStep d p).lookup "libc" = some p)
    ∧ (strStartsWith (pyLower p) "lib" = true → strEndsWith (pyLower p) ".so" = true →
       (detectStep d p).lookup (splitDotHead (pyLower p)) = some p)
    ∧ (strEndsWith (pyLower p) ".so.2" = false → pyLower p ≠ "libc.so.6" →
       (strStartsWith (pyLower p) "lib" && strEndsWith (pyLower p) ".so") = false →
       detectStep d p = d) := by
  refine ⟨?_, ?_, ?_, ?_⟩
  · intro h1
    have hne : pyLower p ≠ "libc.so.6" := by
      intro heq
      rw [heq] at h1
      exact absurd h1 (by decide)
    by_cases h3 : (strStartsWith (pyLower p) "lib" && strEndsWith (pyLower p) ".so") = true
    · have hlib : strStartsWith (pyLower p) "lib" = true := (Bool.and_eq_true _ _ |>.mp h3).1
      have hkey : ("dynamic_linker" : String) ≠ splitDotHead (pyLower p) :=
        fun he => splitDotHead_of_startsWith_lib _ hlib he.symm
      simp only [detectStep, h1, hne, h3, if_true, ite_true, ite_false, if_false,
        eq_self_iff_true]
      rw [lookup_dictInsert_ne _ _ _ _ hkey]
      exact lookup_dictInsert_self d _ p
    · simp only [detectStep, h1, hne, h3, if_true, ite_true, ite_false, if_false,
        eq_self_iff_true]
      exact lookup_dictInsert_self d _ p
  · intro h2
    have h1 : strEndsWith (pyLower p) ".so.2" = false := by rw [h2]; decide
    have h3 : (strStartsWith (pyLower p) "lib" && strEndsWith (pyLower p) ".so") = false := by
      rw [h2]; decide
    simp only [detectStep, h1, h2, h3, Bool.false_eq_true, if_false, ite_false,
      eq_self_iff_true, if_true, ite_true]
    exact lookup_dictInsert_self d _ p
  · intro h3a h3b
    have hand : (strStartsWith (pyLower p) "lib" && strEndsWith (pyLower p) ".so") = true :=
      Bool.and_eq_true _ _ |>.mpr ⟨h3a, h3b⟩
    simp only [detectStep, hand, if_true, ite_true]
    exact lookup_dictInsert_self _ _ p
  · intro h1 h2 h3
    simp [detectStep, h1, h2, h3]

theorem c8_witness :
    (detectStep [] "ld-linux-x86-64.so.2").lookup "dynamic_linker"
        = some "ld-linux-x86-64.so.2"
      ∧ (detectStep [] "LIBC.SO.6").lookup "libc" = some "LIBC.SO.6"
      ∧ (detectStep [] "libssl.so").lookup "libssl" = some "libssl.so"
      ∧ detectStep [("libc", "libc.so.6")] "vuln" = [("libc", "libc.so.6")] :=
  ⟨(c8_amended_inventory_rules [] "ld-linux-x86-64.so.2").1 (by decide),
   (c8_amended_inventory_rules [] "LIBC.SO.6").2.1 (by decide),
   by
     have h := (c8_amended_inventory_rules [] "libssl.so").2.2.1 (by decide) (by decide)
     simpa using h,
   (c8_amended_inventory_rules [("libc", "libc.so.6")] "vuln").2.2.2 (by decide)
     (by decide) (by decide)⟩

/-! ## Claims about the architecture aggregator -/

theorem arch_foldl (tb : PyFile → String) (fs : String → PyFile) (tp : String) :
    ∀ (files : List String) (a32 a64 : List String),
      files.foldl (archStep tb fs tp) (a32, a64)
        = (a32 ++ files.filter (classifies32 tb fs tp),
           a64 ++ files.filter (classifies64 tb fs tp)) := by
  intro files
  induction files with
  | nil => intro a32 a64; simp
  | cons f rest ih =>
    intro a32 a64
    by_cases ha : analyze_executable_content tb (fs (pathJoin tp f)) = "binary"
    · by_cases h32 : detect_elf_architecture (fs (pathJoin tp f)) = "32"
      · have hc32 : classifies32 tb fs tp f = true := by simp [classifies32, ha, h32]
        have hc64 : classifies64 tb fs tp f = false := by simp [classifies64, ha, h32]
        simp only [List.foldl_cons, archStep, ha, h32, if_true, ite_true, if_pos,
          List.filter_cons, hc32, hc64, ih]
        simp
      · by_cases h64 : detect_elf_architecture (fs (pathJoin tp f)) = "64"
        · have hc32 : classifies32 tb fs tp f = false := by simp [classifies32, ha, h32]
          have hc64 : classifies64 tb fs tp f = true := by simp [classifies64, ha, h64]
          simp only [List.foldl_cons, archStep, ha, h32, h64, if_true, ite_true,
            ite_false, List.filter_cons, hc32, hc64, ih]
          simp
        · have hc32 : classifies32 tb fs tp f = false := by simp [classifies32, ha, h32]
          have hc64 : classifies64 tb fs tp f = false := by simp [classifies64, ha, h64]
          simp only [List.foldl_cons, archStep, ha, h32, h64, ite_true, ite_false,
            List.filter_cons, hc32, hc64, ih]
          simp
    · have hc32 : classifies32 tb fs tp f = false := by simp [classifies32, ha]
      have hc64 : classifies64 tb fs tp f = false := by simp [classifies64, ha]
      simp only [List.foldl_cons, archStep, ha, ite_false, List.filter_cons, hc32, hc64, ih]
      simp

/-- C5.  If any task file classifies as a 32-bit ELF binary, the aggregator
returns `("32", the 32-bit files)` and no 64-bit binary is in the relevant
set; otherwise, if any 64-bit ELF binary exists it returns `("64", those
files)`; with neither present it returns `("64", [])`. -/
theorem c5_architecture_aggregation (tb : PyFile → String) (fs : String → PyFile)
    (tp : String) (files : List String) :
    ((∃ fp ∈ files, classifies32 tb fs tp fp = true) →
       get_binary_architecture tb fs tp files
           = ("32", files.filter (classifies32 tb fs tp))
         ∧ ∀ fp ∈ files, classifies64 tb fs tp fp = true →
             fp ∉ (get_binary_architecture tb fs tp files).2)
    ∧ ((∀ fp ∈ files, classifies32 tb fs tp fp = false) →
       (∃ fp ∈ files, classifies64 tb fs tp fp = true) →
         get_binary_architecture tb fs tp files
           = ("64", files.filter (classifies64 tb fs tp)))
    ∧ ((∀ fp ∈ files, classifies32 tb fs tp fp = false
          ∧ classifies64 tb fs tp fp = false) →
         get_binary_architecture tb fs tp files = ("64", [])) := by
  have hfold := arch_foldl tb fs tp files [] []
  simp only [List.nil_append] at hfold
  refine ⟨?_, ?_, ?_⟩
  · rintro ⟨fp, hmem, h32⟩
    have hne : files.filter (classifies32 tb fs tp) ≠ [] :=
      List.ne_nil_of_mem (List.mem_filter.mpr ⟨hmem, h32⟩)
    have hres : get_binary_architecture tb fs tp files
        = ("32", files.filter (classifies32 tb fs tp)) := by
      unfold get_binary_architecture
      rw [hfold]
      simp [hne]
    refine ⟨hres, ?_⟩
    intro fq hq h64 hmem2
    rw [hres] at hmem2
    have h32q : classifies32 tb fs tp fq = true := (List.mem_filter.mp hmem2).2
    have e32 : detect_elf_architecture (fs (pathJoin tp fq)) = "32" := by
      have := (Bool.and_eq_true _ _ |>.mp h32q).2
      simpa using this
    have e64 : detect_elf_architecture (fs (pathJoin tp fq)) = "64" := by
      have := (Bool.and_eq_true _ _ |>.mp h64).2
      simpa using this
    have : ("32" : String) = "64" := e32.symm.trans e64
    exact absurd this (by decide)
  · intro hall ⟨fp, hmem, h64⟩
    have h32nil : files.filter (classifies32 tb fs tp) = [] :=
      List.filter_eq_nil_iff.mpr (fun a ha => by simp [hall a ha])
    have h64ne : files.filter (classifies64 tb fs tp) ≠ [] :=
      List.ne_nil_of_mem (List.mem_filter.mpr ⟨hmem, h64⟩)
    unfold get_binary_architecture
    rw [hfold]
    simp [h32nil, h64ne]
  · intro hall
    have h32nil : files.filter (classifies32 tb fs tp) = [] :=
      List.filter_eq_nil_iff.mpr (fun a ha => by simp [(hall a ha).1])
    have h64nil : files.filter (classifies64 tb fs tp) = [] :=
      List.filter_eq_nil_iff.mpr (fun a ha => by simp [(hall a ha).2])
    unfold get_binary_architecture
    rw [hfold]
    simp [h32nil, h64nil]

theorem c5_witness :
    get_binary_architecture c5Tb c5Fs "task" ["a32", "b64"]
        = ("32", List.filter (classifies32 c5Tb c5Fs "task") ["a32", "b64"])
      ∧ ∀ fp ∈ ["a32", "b64"], classifies64 c5Tb c5Fs "task" fp = true →
          fp ∉ (get_binary_architecture c5Tb c5Fs "task" ["a32", "b64"]).2 :=
  (c5_architecture_aggregation c5Tb c5Fs "task" ["a32", "b64"]).1
    ⟨"a32", by decide, by decide⟩

/-! ## Claims about the regeneration retry loop -/

theorem attemptFails_outcome (env : RetryEnv) (n : Nat) (h : attemptFails env n) :
    attemptOutcome env n = .raised ∨ ∃ c f, attemptOutcome env n = .retry c f := by
  unfold attemptFails at h
  unfold attemptOutcome
  cases hgen : env.gen n with
  | raises => exact Or.inl rfl
  | ok content flag =>
    rw [hgen] at h
    by_cases hs : pyStrip content = ""
    · exact Or.inr ⟨content, flag, by simp [hs]⟩
    · rcases h with h | h
      · exact absurd h hs
      · have hne : (env.issuesOf (env.fixContent content)).isEmpty = false :=
          any_eq_true_isEmpty_false h
        exact Or.inr ⟨env.fixContent content, flag, by simp [hs, hne, h]⟩

theorem retryLoop_allFail (env : RetryEnv) (hf : ∀ n, attemptFails env n) :
    ∀ (rem count : Nat) (c : String) (f : Option String), rem + count = 5 →
      retryLoop env rem count c f = ⟨"", none, false, 5⟩ := by
  intro rem
  induction rem with
  | zero =>
    intro count c f h
    have : count = 5 := by omega
    subst this
    rfl
  | succ rem ih =>
    intro count c f h
    rcases attemptFails_outcome env (count + 1) (hf (count + 1)) with hro | ⟨c', f', hro⟩
    · by_cases hge : count + 1 ≥ 5
      · have h5 : count + 1 = 5 := by omega
        simp only [retryLoop]
        rw [hro]
        simp [hge, h5]
      · simp only [retryLoop]
        rw [hro]
        simp only [hge, if_false, ite_false]
        exact ih (count + 1) c f (by omega)
    · simp only [retryLoop]
      rw [hro]
      exact ih (count + 1) c' f' (by omega)

theorem retryLoop_attempts_le (env : RetryEnv) :
    ∀ (rem count : Nat) (c : String) (f : Option String),
      (retryLoop env rem count c f).attempts ≤ rem + count := by
  intro rem
  induction rem with
  | zero => intro count c f; simp [retryLoop]
  | succ rem ih =>
    intro count c f
    cases hro : attemptOutcome env (count + 1) with
    | accept ca fa =>
      simp only [retryLoop]
      rw [hro]
      dsimp only
      omega
    | retry cr fr =>
      simp only [retryLoop]
      rw [hro]
      dsimp only
      have := ih (count + 1) cr fr
      omega
    | raised =>
      by_cases hge : count + 1 ≥ 5
      · simp only [retryLoop]
        rw [hro]
        dsimp only
        simp only [hge, if_true, ite_true]
        omega
      · simp only [retryLoop]
        rw [hro]
        dsimp only
        simp only [hge, if_false, ite_false]
        have := ih (count + 1) c f
        omega

/-- C2.  The regeneration loop makes at most 5 attempts; when every
attempt fails (exception, blank content, or persisting missing-file
issues) it stops after exactly 5 attempts and returns the hard failure
`("", None, False)`. -/
theorem c2_retry_cap :
    (∀ env : RetryEnv, (∀ n, attemptFails env n) →
       generate_dockerfile_with_retries env
         = { content := "", flag := none, success := false, attempts := 5 })
    ∧ (∀ env : RetryEnv, (generate_dockerfile_with_retries env).attempts ≤ 5) :=
  ⟨fun env hf => retryLoop_allFail env hf 5 0 "" none rfl,
   fun env => by
     have h := retryLoop_attempts_le env 5 0 "" none
     simpa [generate_dockerfile_with_retries] using h⟩

theorem c2_witness :
    generate_dockerfile_with_retries c2Env
      = { content := "", flag := none, success := false, attempts := 5 } :=
  c2_retry_cap.1 c2Env (fun _ => Or.inr (by decide))

theorem isInfix_append_left (a : List Char) {x y : List Char} (h : x <:+: y) :
    x <:+: a ++ y := by
  obtain ⟨p, q, hpq⟩ := h
  exact ⟨a ++ p, q, by rw [← hpq]; simp [List.append_assoc]⟩

theorem isInfix_append_right (b : List Char) {x y : List Char} (h : x <:+: y) :
    x <:+: y ++ b := by
  obtain ⟨p, q, hpq⟩ := h
  exact ⟨p, q ++ b, by rw [← hpq]; simp [List.append_assoc]⟩

theorem mem_infix_pyListStrCore : ∀ (l : List String) (f : String), f ∈ l →
    f.toList <:+: (pyListStrCore l).toList := by
  intro l
  induction l with
  | nil => intro f h; simp at h
  | cons s t ih =>
    intro f hf
    cases t with
    | nil =>
      have : f = s := by simpa using hf
      subst this
      exact ⟨['\''], ['\''], by simp [pyListStrCore, toList_append]⟩
    | cons b t' =>
      rcases List.mem_cons.mp hf with rfl | hmem
      · refine ⟨['\''], "', ".toList ++ (pyListStrCore (b :: t')).toList, ?_⟩
        simp [pyListStrCore, toList_append, List.append_assoc]
      · obtain ⟨p, q, hpq⟩ := ih f hmem
        refine ⟨('\'' :: s.toList ++ "', ".toList) ++ p, q, ?_⟩
        simp only [pyListStrCore, toList_append]
        rw [← hpq]
        simp [List.append_assoc]

/-- C3.  A generated artifact whose validation issues include at least one
missing-referenced-file issue is never accepted — the loop body decides
`retry`; an artifact whose issues are all non-file issues is accepted with
those issues left in place; and the regeneration request built for
non-existing files lists every offending file name in its feedback
prompt. -/
theorem c3_file_issue_retry_policy :
    (∀ (env : RetryEnv) (n : Nat) (content : String) (flag : Option String),
       env.gen n = .ok content flag → pyStrip content ≠ "" →
       hasFileIssue (env.issuesOf (env.fixContent content)) = true →
       attemptOutcome env n = .retry (env.fixContent content) flag)
    ∧ (∀ (env : RetryEnv) (n : Nat) (content : String) (flag : Option String),
       env.gen n = .ok content flag → pyStrip content ≠ "" →
       (∀ issue ∈ env.issuesOf (env.fixContent content),
          containsSubstr issue "does not match any available files" = false) →
       attemptOutcome env n = .accept (env.fixContent content) flag)
    ∧ (∀ (non_existing_files available_files : List String) (base prompt f : String),
       f ∈ non_existing_files →
       containsSubstr (mkFeedbackPrompt non_existing_files available_files base prompt) f
         = true) := by
  refine ⟨?_, ?_, ?_⟩
  · intro env n content flag hgen hs hfi
    have hne : (env.issuesOf (env.fixContent content)).isEmpty = false :=
      any_eq_true_isEmpty_false hfi
    unfold attemptOutcome
    rw [hgen]
    simp [hs, hne, hfi]
  · intro env n content flag hgen hs hall
    have hfi : hasFileIssue (env.issuesOf (env.fixContent content)) = false := by
      unfold hasFileIssue
      rw [List.any_eq_false]
      intro issue hmem
      simp [hall issue hmem]
    unfold attemptOutcome
    rw [hgen]
    by_cases hne : (env.issuesOf (env.fixContent content)).isEmpty
    · simp [hs, hne]
    · simp [hs, hne, hfi]
  · intro nef avail base prompt f hf
    rw [containsSubstr_iff]
    have hcore : f.toList <:+: (pyListStrCore nef).toList :=
      mem_infix_pyListStrCore nef f hf
    simp only [mkFeedbackPrompt, pyListStr, toList_append, List.append_assoc]
    exact isInfix_append_left _ (isInfix_append_left _ (isInfix_append_left _
      (isInfix_append_right _ hcore)))

theorem c3_witness :
    attemptOutcome c3Env 1 = .retry "COPY foo.bin /challenge/" none
      ∧ attemptOutcome c3EnvAccept 1 = .accept "FROM ubuntu:20.04" none
      ∧ containsSubstr
          (mkFeedbackPrompt ["foo.bin"] ["vuln", "flag.txt"] "ubuntu:20.04" "prompt")
          "foo.bin" = true :=
  ⟨c3_file_issue_retry_policy.1 c3Env 1 "COPY foo.bin /challenge/" none rfl
     (by decide) (by decide),
   c3_file_issue_retry_policy.2.1 c3EnvAccept 1 "FROM ubuntu:20.04" none rfl
     (by decide) (by decide),
   c3_file_issue_retry_policy.2.2 ["foo.bin"] ["vuln", "flag.txt"] "ubuntu:20.04"
     "prompt" "foo.bin" (by decide)⟩

/-! ## Claims about tier ordering in the compatibility tester -/

theorem mismatchStep_system_libs (libs : Dict) (tp : String) (env : TestEnv)
    (r : TestResults) : (mismatchStep libs tp env r).system_libs = r.system_libs := by
  unfold mismatchStep
  repeat' split
  all_goals try dsimp only
  all_goals repeat' split
  all_goals rfl

theorem mismatchStep_custom_libc (libs : Dict) (tp : String) (env : TestEnv)
    (r : TestResults) :
    (mismatchStep libs tp env r).custom_libc_only = r.custom_libc_only := by
  unfold mismatchStep
  repeat' split
  all_goals try dsimp only
  all_goals repeat' split
  all_goals rfl

theorem mismatchStep_custom_linker (libs : Dict) (tp : String) (env : TestEnv)
    (r : TestResults) :
    (mismatchStep libs tp env r).custom_dynamic_linker = r.custom_dynamic_linker := by
  unfold mismatchStep
  repeat' split
  all_goals try dsimp only
  all_goals repeat' split
  all_goals rfl

theorem tier1Step_custom_libc (env : TestEnv) (r : TestResults) :
    (tier1Step env r).custom_libc_only = r.custom_libc_only := by
  unfold tier1Step
  repeat' split
  all_goals try dsimp only
  all_goals repeat' split
  all_goals rfl

theorem tier1Step_custom_linker (env : TestEnv) (r : TestResults) :
    (tier1Step env r).custom_dynamic_linker = r.custom_dynamic_linker := by
  unfold tier1Step
  repeat' split
  all_goals try dsimp only
  all_goals repeat' split
  all_goals rfl

theorem tier2Step_system_libs (env : TestEnv) (r : TestResults) :
    (tier2Step env r).system_libs = r.system_libs := by
  unfold tier2Step
  repeat' split
  all_goals try dsimp only
  all_goals repeat' split
  all_goals rfl

theorem tier2Step_custom_linker (env : TestEnv) (r : TestResults) :
    (tier2Step env r).custom_dynamic_linker = r.custom_dynamic_linker := by
  unfold tier2Step
  repeat' split
  all_goals try dsimp only
  all_goals repeat' split
  all_goals rfl

theorem tier3Step_system_libs (env : TestEnv) (r : TestResults) :
    (tier3Step env r).system_libs = r.system_libs := by
  unfold tier3Step
  repeat' split
  all_goals try dsimp only
  all_goals repeat' split
  all_goals rfl

theorem stateAfterTier2_system_libs (libs : Dict) (tp : String) (env : TestEnv) :
    (stateAfterTier2 libs tp env).system_libs
      = (stateAfterTier1 libs tp env).system_libs := by
  unfold stateAfterTier2
  dsimp only
  split
  · exact tier2Step_system_libs env _
  · rfl

theorem stateAfterTier3_system_libs (libs : Dict) (tp : String) (env : TestEnv) :
    (stateAfterTier3 libs tp env).system_libs
      = (stateAfterTier1 libs tp env).system_libs := by
  unfold stateAfterTier3
  dsimp only
  split
  · rw [tier3Step_system_libs env _]
    exact stateAfterTier2_system_libs libs tp env
  · exact stateAfterTier2_system_libs libs tp env

theorem stateAfterTier2_custom_linker (libs : Dict) (tp : String) (env : TestEnv) :
    (stateAfterTier2 libs tp env).custom_dynamic_linker = false := by
  have h1 : (stateAfterTier1 libs tp env).custom_dynamic_linker = false := by
    unfold stateAfterTier1
    rw [tier1Step_custom_linker, mismatchStep_custom_linker]
    rfl
  unfold stateAfterTier2
  dsimp only
  split
  · rw [tier2Step_custom_linker]
    exact h1
  · exact h1

theorem c1_counterexample :
    (stateAfterTier1 c1Libs "task" c1Env).system_libs = true
      ∧ tier2Guard c1Libs (stateAfterTier1 c1Libs "task" c1Env) = false
      ∧ tier3Guard c1Libs (stateAfterTier2 c1Libs "task" c1Env) = true :=
  ⟨by decide, by decide, by decide⟩

/-- C1, amended.  Tier 2 is attempted only if tier 1 failed.  Tier 3 is
attempted only if both a libc and a dynamic linker were supplied and tier
2 did not succeed — but tier 1 success does not block a tier-3 attempt
(the tier-3 guard omits the tier-1 flag).  The final `working_config`
still reports the earliest successful tier: whenever tier 1 succeeded the
classification is `system_libs`. -/
theorem c1_amended_tier_ordering (libs : Dict) (tp : String) (env : TestEnv) :
    (tier2Guard libs (stateAfterTier1 libs tp env) = true →
       (stateAfterTier1 libs tp env).system_libs = false)
    ∧ ((stateAfterTier1 libs tp env).system_libs = true →
       tier2Guard libs (stateAfterTier1 libs tp env) = false)
    ∧ (tier3Guard libs (stateAfterTier2 libs tp env) = true →
       (libs.lookup "dynamic_linker").isSome = true
       ∧ (libs.lookup "libc").isSome = true
       ∧ (stateAfterTier2 libs tp env).custom_libc_only = false)
    ∧ (∀ b, (stateAfterTier1 libs tp env).system_libs = true →
       (classifyStep libs b (stateAfterTier3 libs tp env)).working_config
         = "system_libs") := by
  refine ⟨?_, ?_, ?_, ?_⟩
  · intro h
    have := (Bool.and_eq_true _ _ |>.mp h).2
    simpa using this
  · intro h
    simp [tier2Guard, h]
  · intro h
    have h1 := (Bool.and_eq_true _ _ |>.mp h).1
    have h2 := (Bool.and_eq_true _ _ |>.mp h).2
    have h11 := (Bool.and_eq_true _ _ |>.mp h1).1
    have h12 := (Bool.and_eq_true _ _ |>.mp h1).2
    exact ⟨h11, h12, by simpa using h2⟩
  · intro b h
    have h3 : (stateAfterTier3 libs tp env).system_libs = true :=
      (stateAfterTier3_system_libs libs tp env).trans h
    simp [classifyStep, h3]

theorem c1_witness :
    (stateAfterTier1 [("libc", "libc.so.6")] "task"
        ⟨true, ⟨false, false, 1, "", 1, ""⟩, .raised, .completed (-11) "", .ran 0, .ran 0⟩).system_libs
        = false
      ∧ (classifyStep c1Libs "vuln" (stateAfterTier3 c1Libs "task" c1Env)).working_config
          = "system_libs" :=
  ⟨(c1_amended_tier_ordering [("libc", "libc.so.6")] "task"
      ⟨true, ⟨false, false, 1, "", 1, ""⟩, .raised, .completed (-11) "", .ran 0, .ran 0⟩).1
      (by decide),
   (c1_amended_tier_ordering c1Libs "task" c1Env).2.2.2 "vuln" (by decide)⟩

/-! ## Claims about the fix-command generator -/

theorem heuristic_allowed (provided_libs : Dict) (binary_files : List String)
    (cmd : String) (h : cmd ∈ heuristicFixCommands provided_libs binary_files) :
    allowedFixCommand provided_libs binary_files cmd := by
  unfold heuristicFixCommands at h
  by_cases hdl : (provided_libs.lookup "dynamic_linker").isSome
  · obtain ⟨dl, hdl'⟩ := Option.isSome_iff_exists.mp hdl
    rw [if_pos hdl] at h
    rcases List.mem_cons.mp h with rfl | h
    · exact Or.inl (by simp)
    · obtain ⟨b, hb, hcmd⟩ := List.mem_flatMap.mp h
      rcases List.mem_cons.mp hcmd with rfl | hcmd
      · refine Or.inr (Or.inr ⟨b, hb, dl, hdl', ?_⟩)
        simp [hdl']
      · have : cmd = "    patchelf --set-rpath . /challenge/" ++ b := by simpa using hcmd
        exact Or.inr (Or.inl ⟨b, hb, this⟩)
  · rw [if_neg hdl] at h
    by_cases hlc : (provided_libs.lookup "libc").isSome
    · rw [if_pos hlc] at h
      rcases List.mem_cons.mp h with rfl | h
      · exact Or.inl (by simp)
      · obtain ⟨b, hb, hcmd⟩ := List.mem_map.mp h
        exact Or.inr (Or.inl ⟨b, hb, hcmd.symm⟩)
    · rw [if_neg hlc] at h
      simp at h

theorem test_commands_allowed (tp : String) (bins : List String) (libs : Dict)
    (env : TestEnv) (cmd : String)
    (h : cmd ∈ (test_binary_library_configurations tp bins libs env).commands) :
    allowedFixCommand libs bins cmd := by
  cases bins with
  | nil => simp [test_binary_library_configurations, TestOutcome.commands] at h
  | cons b rest =>
    unfold test_binary_library_configurations at h
    by_cases hex : env.binary_exists
    · simp only [hex, Bool.not_true, Bool.false_eq_true, if_false, TestOutcome.commands]
        at h
      set r3 := stateAfterTier3 libs tp env with hr3
      by_cases h1 : r3.system_libs
      · simp [classifyStep, h1, initResults] at h
      · by_cases h2 : r3.custom_libc_only
        · simp only [classifyStep, h1, h2, Bool.false_eq_true, if_false, if_true,
            ite_true, ite_false] at h
          rcases List.mem_cons.mp h with rfl | h
          · exact Or.inl (by simp)
          · have : cmd = "    patchelf --set-rpath . /challenge/" ++ b := by simpa using h
            exact Or.inr (Or.inl ⟨b, by simp, this⟩)
        · by_cases h3 : r3.custom_dynamic_linker
          · have hguard : tier3Guard libs (stateAfterTier2 libs tp env) = true := by
              by_contra hng
              have hg : tier3Guard libs (stateAfterTier2 libs tp env) = false := by
                cases hgg : tier3Guard libs (stateAfterTier2 libs tp env) with
                | true => exact absurd hgg hng
                | false => rfl
              have hr2 : r3 = stateAfterTier2 libs tp env := by
                rw [hr3]
                unfold stateAfterTier3
                dsimp only
                rw [hg]
                simp
              rw [hr2] at h3
              exact absurd (stateAfterTier2_custom_linker libs tp env) (by simp [h3])
            have hdl : (libs.lookup "dynamic_linker").isSome = true :=
              (Bool.and_eq_true _ _ |>.mp ((Bool.and_eq_true _ _ |>.mp hguard).1)).1
            obtain ⟨dl, hdl'⟩ := Option.isSome_iff_exists.mp hdl
            simp only [classifyStep, h1, h2, h3, Bool.false_eq_true, if_false, if_true,
              ite_true, ite_false] at h
            rcases List.mem_cons.mp h with rfl | h
            · exact Or.inl (by simp)
            · rcases List.mem_cons.mp h with rfl | h
              · refine Or.inr (Or.inr ⟨b, by simp, dl, hdl', ?_⟩)
                simp [hdl']
              · have : cmd = "    patchelf --set-rpath . /challenge/" ++ b := by simpa using h
                exact Or.inr (Or.inl ⟨b, by simp, this⟩)
          · simp [classifyStep, h1, h2, h3] at h
    · simp only [hex, Bool.not_false, if_true, TestOutcome.commands] at h
      simp [initResults] at h

theorem c4_counterexample :
    generate_library_fix_commands c4Libs ["vuln"] "task" c4Env = []
      ∧ (test_binary_library_configurations "task" ["vuln"] c4Libs c4Env).working_config
          = "unknown"
      ∧ ("unknown" : String) ≠ "system_libs" :=
  ⟨by decide, by decide, by decide⟩

/-- C4, amended.  When a sandbox test ran (non-empty task path) and
resolved `system_libs`, the generator returns the empty list; the converse
fails (see the counterexample).  Every command the generator ever returns
is one of the fixed templates, referencing only the inventory's
`dynamic_linker` path and the given binary files. -/
theorem c4_amended_fix_commands (libs : Dict) (bins : List String) (tp : String)
    (env : TestEnv) :
    (tp ≠ "" →
       (test_binary_library_configurations tp bins libs env).working_config
         = "system_libs" →
       generate_library_fix_commands libs bins tp env = [])
    ∧ (∀ cmd ∈ generate_library_fix_commands libs bins tp env,
       allowedFixCommand libs bins cmd) := by
  constructor
  · intro htp hwc
    unfold generate_library_fix_commands
    by_cases hb : (libs.isEmpty || bins.isEmpty) = true
    · simp [hb]
    · rw [if_neg (by simpa using hb), if_pos htp]
      dsimp only
      rw [if_pos hwc]
  · intro cmd h
    unfold generate_library_fix_commands at h
    by_cases hb : (libs.isEmpty || bins.isEmpty) = true
    · simp [hb] at h
    · rw [if_neg (by simpa using hb)] at h
      by_cases htp : tp ≠ ""
      · rw [if_pos htp] at h
        dsimp only at h
        by_cases hwc : (test_binary_library_configurations tp bins libs env).working_config
            = "system_libs"
        · rw [if_pos hwc] at h
          simp at h
        · rw [if_neg hwc] at h
          by_cases hc1 : (test_binary_library_configurations tp bins libs env).working_config
              = "custom_libc_only"
          · rw [if_pos (by simp [hc1])] at h
            exact test_commands_allowed tp bins libs env cmd h
          · by_cases hc2 : (test_binary_library_configurations tp bins
                libs env).working_config = "custom_dynamic_linker"
            · rw [if_pos (by simp [hc2])] at h
              exact test_commands_allowed tp bins libs env cmd h
            · rw [if_neg (by simp [hc1, hc2])] at h
              exact heuristic_allowed libs bins cmd h
      · rw [if_neg htp] at h
        exact heuristic_allowed libs bins cmd h

theorem c4_witness :
    generate_library_fix_commands c4wLibs ["vuln"] "task" c4wEnv = []
      ∧ allowedFixCommand c4hLibs ["vuln"]
          "    patchelf --set-rpath . /challenge/vuln" :=
  ⟨(c4_amended_fix_commands c4wLibs ["vuln"] "task" c4wEnv).1 (by decide) (by decide),
   (c4_amended_fix_commands c4hLibs ["vuln"] "" c4wEnv).2
     "    patchelf --set-rpath . /challenge/vuln" (by decide)⟩

end CtfDojo
